import Mathlib

/-!
Shallow embedding of the order/payment/catalog core of the products-api
service (src/controllers/order.controller.js, product.controller.js, the
payment controller, and the mongoose models).  JavaScript numbers are
modelled exactly over the rationals (prices) and the integers (quantities,
stock counts); Number.prototype.toFixed(2) is modelled as round-half-up to
two decimal places.  Mongo documents are modelled as Lean structures, a
collection as a list of documents, findById as first-match lookup and a
save as first-match replacement.  Fallible steps (order.save throwing,
signature verification, the db step inside the webhook) are explicit
boolean fault parameters; a handler returns its HTTP response together
with the updated stores and, for order creation, the trace of database
write effects in the order the code issues them.
-/

set_option autoImplicit false

namespace ProductsApi

abbrev Pid := Nat
abbrev Uid := Nat
abbrev Oid := Nat

/-- Review subdocument of the product schema (product.model.js). -/
structure Review where
  name : String
  rating : ℚ
  comment : String
  user : Uid
deriving Repr, DecidableEq

/-- Product document (product.model.js): owner, name, image, price,
description, category, countInStock, embedded reviews, derived rating
and numReviews. -/
structure Product where
  id : Pid
  user : Uid
  name : String
  image : String
  price : ℚ
  description : String
  category : String
  countInStock : ℤ
  reviews : List Review
  rating : ℚ
  numReviews : ℕ
deriving Repr, DecidableEq

/-- Payment result subdocument of the order schema (order.model.js). -/
structure PaymentResult where
  id : String
  status : String
  update_time : String
  email_address : String
deriving Repr, DecidableEq

/-- Persisted order line item (order.model.js orderItems entry). -/
structure OrderItem where
  name : String
  quantity : ℤ
  image : String
  price : ℚ
  product : Pid
deriving Repr, DecidableEq

/-- Order document (order.model.js).  paidAt and deliveredAt are optional
millisecond timestamps. -/
structure Order where
  id : Oid
  user : Uid
  orderItems : List OrderItem
  shippingAddress : String
  paymentMethod : String
  paymentResult : Option PaymentResult
  itemsPrice : ℚ
  taxPrice : ℚ
  shippingPrice : ℚ
  totalPrice : ℚ
  isPaid : Bool
  paidAt : Option ℤ
  isDelivered : Bool
  deliveredAt : Option ℤ
deriving Repr, DecidableEq

/-- Product.findById / the productMap lookup: first document whose _id
matches. -/
def findProduct (catalog : List Product) (pid : Pid) : Option Product :=
  catalog.find? (fun p => p.id == pid)

/-- Order.findById: first document whose _id matches. -/
def findOrder (orders : List Order) (oid : Oid) : Option Order :=
  orders.find? (fun o => o.id == oid)

/-- product.save() after mutating a fetched document: replace the first
document with the given _id. -/
def saveProduct (pid : Pid) (p : Product) : List Product → List Product
  | [] => []
  | q :: qs => if q.id == pid then p :: qs else q :: saveProduct pid p qs

/-- order.save() after mutating a fetched document: replace the first
document with the given _id. -/
def saveOrder (oid : Oid) (o : Order) : List Order → List Order
  | [] => []
  | q :: qs => if q.id == oid then o :: qs else q :: saveOrder oid o qs

/-- The JSON response shape used by the controllers: HTTP status code,
the boolean status flag of the body, and the message. -/
structure Resp where
  status : Nat
  ok : Bool
  message : String
deriving Repr, DecidableEq

/-- One entry of req.body.orderItems.  The code reads only item.product
and item.quantity; a caller-supplied price field is carried here to state
that it is ignored. -/
structure CartLine where
  product : Pid
  quantity : ℤ
  price : Option ℚ
deriving Repr, DecidableEq

/-- One staged updateOne of the bulkWrite: filter by _id, $inc
countInStock by inc (the code stages inc = -quantity). -/
structure BulkOp where
  pid : Pid
  inc : ℤ
deriving Repr, DecidableEq

/-- The two early-return failures of the validation loop in
addOrderItems. -/
inductive CartError where
  | productNotFound (pid : Pid)
  | outOfStock (name : String)
deriving Repr, DecidableEq

/-- The validation loop of addOrderItems (order.controller.js lines
42-79): for each line in input order, resolve the product (404 on miss),
check countInStock < quantity (400 on failure), otherwise accumulate
itemsPrice, the validated snapshot line and the staged stock decrement. -/
def processItems (lookup : Pid → Option Product) :
    List CartLine → Except CartError (ℚ × List OrderItem × List BulkOp)
  | [] => .ok (0, [], [])
  | line :: rest =>
    match lookup line.product with
    | none => .error (.productNotFound line.product)
    | some p =>
      if p.countInStock < line.quantity then
        .error (.outOfStock p.name)
      else
        match processItems lookup rest with
        | .error e => .error e
        | .ok (ip, items, ops) =>
          .ok (p.price * (line.quantity : ℚ) + ip,
               { name := p.name, quantity := line.quantity, image := p.image,
                 price := p.price, product := p.id } :: items,
               { pid := p.id, inc := -line.quantity } :: ops)

/-- Apply one updateOne with $inc on countInStock to the first document
matching the filter. -/
def incStock (pid : Pid) (inc : ℤ) : List Product → List Product
  | [] => []
  | p :: ps =>
    if p.id == pid then { p with countInStock := p.countInStock + inc } :: ps
    else p :: incStock pid inc ps

/-- Product.bulkWrite: apply the staged updateOne operations in order. -/
def applyBulkOps (catalog : List Product) (ops : List BulkOp) : List Product :=
  ops.foldl (fun cat op => incStock op.pid op.inc cat) catalog

/-- Number((x).toFixed(2)) on the exact rational model: round half up to
two decimal places. -/
def round2 (x : ℚ) : ℚ := (round (x * 100) : ℚ) / 100

/-- req.body of POST /api/orders. -/
structure OrderReq where
  orderItems : List CartLine
  shippingAddress : String
  paymentMethod : String
deriving Repr, DecidableEq

/-- Database write effects of addOrderItems, in issue order. -/
inductive DbEffect where
  | stockCommit
  | orderSave
deriving Repr, DecidableEq

/-- The two stores addOrderItems touches. -/
structure OrderState where
  catalog : List Product
  orders : List Order
deriving Repr, DecidableEq

/-- The new Order document built by addOrderItems (order.controller.js
lines 81-94): taxPrice is toFixed-rounded ten percent of itemsPrice,
shippingPrice 0 over the 100 threshold and 10 at or below it, totalPrice
their sum, and the flags start unpaid and undelivered. -/
def mkOrderDoc (userId : Uid) (body : OrderReq) (newOid : Oid) (ip : ℚ)
    (items : List OrderItem) : Order :=
  let taxPrice := round2 (ip * (1 / 10))
  let shippingPrice : ℚ := if ip > 100 then 0 else 10
  { id := newOid, user := userId, orderItems := items,
    shippingAddress := body.shippingAddress,
    paymentMethod := body.paymentMethod, paymentResult := none,
    itemsPrice := ip, taxPrice := taxPrice, shippingPrice := shippingPrice,
    totalPrice := ip + taxPrice + shippingPrice,
    isPaid := false, paidAt := none, isDelivered := false, deliveredAt := none }

/-- addOrderItems (order.controller.js lines 8-128).  newOid is the _id
mongo assigns to the new order; saveFails injects a throw from
order.save(), which the outer catch turns into a 500 after the bulkWrite
already ran (lines 96-101: Product.bulkWrite is awaited before
order.save).  The confirmation email is best-effort and affects neither
the response nor the stores, so it is not modelled.  The third component
is the trace of database writes actually issued. -/
def addOrderItems (st : OrderState) (userId : Uid) (body : OrderReq)
    (newOid : Oid) (saveFails : Bool) : Resp × OrderState × List DbEffect :=
  if body.orderItems.isEmpty then
    ({ status := 400, ok := false, message := "No order items" }, st, [])
  else
    match processItems (findProduct st.catalog) body.orderItems with
    | .error (.productNotFound pid) =>
        ({ status := 404, ok := false,
           message := "Product " ++ toString pid ++ " not found" }, st, [])
    | .error (.outOfStock name) =>
        ({ status := 400, ok := false,
           message := name ++ " is out of stock" }, st, [])
    | .ok (itemsPrice, items, ops) =>
        let order := mkOrderDoc userId body newOid itemsPrice items
        let catalog1 := if ops.isEmpty then st.catalog else applyBulkOps st.catalog ops
        if saveFails then
          ({ status := 500, ok := false, message := "save failed" },
           { catalog := catalog1, orders := st.orders }, [.stockCommit])
        else
          ({ status := 201, ok := true, message := "Order created successfully" },
           { catalog := catalog1, orders := st.orders ++ [order] },
           [.stockCommit, .orderSave])

/-- Current stock reading of a product id, as findById would report it. -/
def stockOf (catalog : List Product) (pid : Pid) : Option ℤ :=
  (findProduct catalog pid).map (fun p => p.countInStock)

/-- Total quantity the cart orders for one product id, summed over all of
its lines. -/
def qtyOrdered (lines : List CartLine) (pid : Pid) : ℤ :=
  ((lines.filter (fun l => l.product == pid)).map (fun l => l.quantity)).sum

/-- Net $inc the staged operations apply to one product id. -/
def incSum (ops : List BulkOp) (pid : Pid) : ℤ :=
  ((ops.filter (fun op => op.pid == pid)).map (fun op => op.inc)).sum

/-- req.body of PUT /api/products/:id.  none models an absent (or null)
field; the empty string and zero are the falsy present values the
JavaScript or-pattern also discards. -/
structure UpdateReq where
  name : Option String
  price : Option ℚ
  description : Option String
  category : Option String
  countInStock : Option ℤ
deriving Repr, DecidableEq

/-- The JavaScript pattern newValue or oldValue for a string field:
an absent, null or empty-string value keeps the old one. -/
def jsOrStr (v : Option String) (old : String) : String :=
  match v with
  | none => old
  | some s => if s = "" then old else s

/-- The JavaScript pattern newValue or oldValue for a numeric field
modelled over the rationals: absent, null or zero keeps the old value. -/
def jsOrQ (v : Option ℚ) (old : ℚ) : ℚ :=
  match v with
  | none => old
  | some x => if x = 0 then old else x

/-- The JavaScript pattern newValue or oldValue for a numeric field
modelled over the integers: absent, null or zero keeps the old value. -/
def jsOrZ (v : Option ℤ) (old : ℤ) : ℤ :=
  match v with
  | none => old
  | some x => if x = 0 then old else x

/-- updateProduct (product.controller.js lines 148-191): 404 when the id
resolves to nothing; 401 when the caller neither owns the product nor is
admin; otherwise each of the five body fields overwrites the stored one
through the or-pattern and the document is saved. -/
def updateProduct (catalog : List Product) (actor : Uid) (actorIsAdmin : Bool)
    (pid : Pid) (body : UpdateReq) : Resp × List Product :=
  match findProduct catalog pid with
  | none =>
      ({ status := 404, ok := false, message := "Product not found" }, catalog)
  | some p =>
      if p.user ≠ actor ∧ actorIsAdmin = false then
        ({ status := 401, ok := false,
           message := "Not authorized to edit this product" }, catalog)
      else
        let p1 : Product :=
          { p with
            name := jsOrStr body.name p.name,
            price := jsOrQ body.price p.price,
            description := jsOrStr body.description p.description,
            category := jsOrStr body.category p.category,
            countInStock := jsOrZ body.countInStock p.countInStock }
        ({ status := 200, ok := true, message := "Product updated successfully" },
         saveProduct pid p1 catalog)

/-- req.body of POST /api/products/:id/reviews. -/
structure ReviewReq where
  rating : ℚ
  comment : String
deriving Repr, DecidableEq

/-- createProductReview (product.controller.js lines 196-246): 404 on a
missing product; 400 when this user already has a review on it;
otherwise push the review, set numReviews to the review count, set
rating to the arithmetic mean of the ratings and save. -/
def createProductReview (catalog : List Product) (actor : Uid)
    (actorName : String) (pid : Pid) (body : ReviewReq) : Resp × List Product :=
  match findProduct catalog pid with
  | none =>
      ({ status := 404, ok := false, message := "Product not found" }, catalog)
  | some p =>
      if (p.reviews.find? (fun r => r.user == actor)).isSome then
        ({ status := 400, ok := false,
           message := "Product already reviewed by this user" }, catalog)
      else
        let reviews1 := p.reviews ++
          [{ name := actorName, rating := body.rating,
             comment := body.comment, user := actor }]
        let p1 : Product :=
          { p with
            reviews := reviews1,
            numReviews := reviews1.length,
            rating := ((reviews1.map (fun r => r.rating)).sum) / (reviews1.length : ℚ) }
        ({ status := 201, ok := true, message := "Review added" },
         saveProduct pid p1 catalog)

/-- req.body of POST /api/payment/create-payment-intent. -/
structure PaymentIntentReq where
  orderId : Option Oid
  currency : Option String
deriving Repr, DecidableEq

/-- The provider-side payment intent created by createPaymentIntent:
amount in cents, currency, and the order id put into the metadata. -/
structure PaymentIntent where
  amount : ℤ
  currency : String
  metadataOrderId : Oid
deriving Repr, DecidableEq

/-- Response of createPaymentIntent, carrying the created intent on the
success path. -/
structure IntentResp where
  status : Nat
  ok : Bool
  message : String
  intent : Option PaymentIntent
deriving Repr, DecidableEq

/-- createPaymentIntent (payment controller lines 263-312): 400 without
an order id, 404 when the order is absent, 401 when the caller does not
own it; otherwise it charges Math.round(totalPrice times 100) cents with
the order id as metadata.  The handler never writes a store, so the order
collection is returned unchanged on every path. -/
def createPaymentIntent (orders : List Order) (actor : Uid)
    (body : PaymentIntentReq) : IntentResp × List Order :=
  match body.orderId with
  | none =>
      ({ status := 400, ok := false, message := "Order ID is required",
         intent := none }, orders)
  | some oid =>
      match findOrder orders oid with
      | none =>
          ({ status := 404, ok := false, message := "Order not found",
             intent := none }, orders)
      | some o =>
          if o.user ≠ actor then
            ({ status := 401, ok := false,
               message := "Not authorized to pay for this order",
               intent := none }, orders)
          else
            ({ status := 200, ok := true, message := "",
               intent := some
                 { amount := round (o.totalPrice * 100),
                   currency := body.currency.getD "usd",
                   metadataOrderId := oid } }, orders)

/-- The payment-intent object carried by a Stripe event. -/
structure PaymentIntentObj where
  id : String
  amount : ℤ
  status : String
  metadataOrderId : Option Oid
  receipt_email : Option String
deriving Repr, DecidableEq

/-- A Stripe webhook event as the handler reads it. -/
structure StripeEvent where
  type : String
  obj : PaymentIntentObj
deriving Repr, DecidableEq

/-- Response of the webhook endpoint: status code and raw body text. -/
structure WebhookResp where
  status : Nat
  body : String
deriving Repr, DecidableEq

/-- stripeWebhook (payment controller lines 319-392).  sigValid is the
outcome of stripe.webhooks.constructEvent: when it throws, the handler
answers 400 and touches nothing.  Once verified, only a
payment_intent.succeeded event with an order id in its metadata that
resolves to a stored order leads to a write: isPaid becomes true, paidAt
the current time, and the payment result records the intent id, status,
time, and the receipt email falling back to the order owner's stored
email.  A db failure (dbFails) is caught and logged, an email failure
(emailFails) likewise; every verified path acknowledges with 200. -/
def stripeWebhook (orders : List Order) (emailOf : Uid → String)
    (sigValid : Bool) (event : StripeEvent) (now : ℤ) (nowIso : String)
    (dbFails : Bool) (emailFails : Bool) : WebhookResp × List Order :=
  if sigValid = false then
    ({ status := 400, body := "Webhook Error" }, orders)
  else if event.type = "payment_intent.succeeded" then
    match event.obj.metadataOrderId with
    | none => ({ status := 200, body := "" }, orders)
    | some oid =>
        if dbFails then ({ status := 200, body := "" }, orders)
        else
          match findOrder orders oid with
          | none => ({ status := 200, body := "" }, orders)
          | some o =>
              let o1 : Order :=
                { o with
                  isPaid := true,
                  paidAt := some now,
                  paymentResult := some
                    { id := event.obj.id, status := event.obj.status,
                      update_time := nowIso,
                      email_address :=
                        event.obj.receipt_email.getD (emailOf o.user) } }
              ({ status := 200, body := "" }, saveOrder oid o1 orders)
  else ({ status := 200, body := "" }, orders)

/-! Helper lemmas about the store primitives. -/

theorem findProduct_id {catalog : List Product} {pid : Pid} {p : Product}
    (h : findProduct catalog pid = some p) : p.id = pid := by
  simp only [findProduct] at h
  have h2 := List.find?_some h
  simpa using h2

theorem findProduct_saveProduct_self (catalog : List Product) (pid : Pid)
    (p q : Product) (hp : p.id = pid) (h : findProduct catalog pid = some q) :
    findProduct (saveProduct pid p catalog) pid = some p := by
  induction catalog with
  | nil => simp [findProduct] at h
  | cons r rs ih =>
    cases hr : (r.id == pid) with
    | true => simp [saveProduct, hr, findProduct, List.find?, hp]
    | false =>
      simp only [findProduct, List.find?, hr, cond_false] at h
      simp only [saveProduct, hr, Bool.false_eq_true, ite_false]
      simpa only [findProduct, List.find?, hr, cond_false] using ih h

theorem findOrder_id {orders : List Order} {oid : Oid} {o : Order}
    (h : findOrder orders oid = some o) : o.id = oid := by
  simp only [findOrder] at h
  have h2 := List.find?_some h
  simpa using h2

theorem findOrder_saveOrder_self (orders : List Order) (oid : Oid)
    (o q : Order) (ho : o.id = oid) (h : findOrder orders oid = some q) :
    findOrder (saveOrder oid o orders) oid = some o := by
  induction orders with
  | nil => simp [findOrder] at h
  | cons r rs ih =>
    cases hr : (r.id == oid) with
    | true => simp [saveOrder, hr, findOrder, List.find?, ho]
    | false =>
      simp only [findOrder, List.find?, hr, cond_false] at h
      simp only [saveOrder, hr, Bool.false_eq_true, ite_false]
      simpa only [findOrder, List.find?, hr, cond_false] using ih h

theorem findProduct_incStock_self (catalog : List Product) (pid : Pid) (inc : ℤ) :
    findProduct (incStock pid inc catalog) pid =
      (findProduct catalog pid).map
        (fun p => { p with countInStock := p.countInStock + inc }) := by
  induction catalog with
  | nil => rfl
  | cons r rs ih =>
    by_cases hr : (r.id == pid) = true
    · simp [incStock, hr, findProduct, List.find?_cons_of_pos]
    · simp only [incStock, hr, Bool.false_eq_true, ite_false]
      simp only [findProduct, List.find?_cons_of_neg, hr, Bool.false_eq_true,
        not_false_iff]
      exact ih

theorem findProduct_incStock_ne (catalog : List Product) {pid pid' : Pid}
    (h : pid' ≠ pid) (inc : ℤ) :
    findProduct (incStock pid' inc catalog) pid = findProduct catalog pid := by
  induction catalog with
  | nil => rfl
  | cons r rs ih =>
    by_cases hr : (r.id == pid') = true
    · have hid : r.id = pid' := by simpa using hr
      have hne : (r.id == pid) = false := by simp [hid, h]
      simp [incStock, hr, findProduct, List.find?_cons_of_neg, hne]
    · simp only [incStock, hr, Bool.false_eq_true, ite_false]
      by_cases hq : (r.id == pid) = true
      · simp [findProduct, List.find?_cons_of_pos, hq]
      · simp only [findProduct, List.find?_cons_of_neg, hq, Bool.false_eq_true,
          not_false_iff]
        exact ih

theorem stockOf_applyBulkOps (ops : List BulkOp) (catalog : List Product)
    (pid : Pid) :
    stockOf (applyBulkOps catalog ops) pid =
      (stockOf catalog pid).map (fun s => s + incSum ops pid) := by
  induction ops generalizing catalog with
  | nil =>
    cases hf : findProduct catalog pid <;>
      simp [applyBulkOps, incSum, stockOf, hf]
  | cons op ops ih =>
    have hstep : applyBulkOps catalog (op :: ops)
        = applyBulkOps (incStock op.pid op.inc catalog) ops := rfl
    rw [hstep, ih]
    by_cases h : op.pid = pid
    · subst h
      simp only [stockOf, findProduct_incStock_self, Option.map_map, incSum,
        List.filter_cons, beq_self_eq_true, ite_true, List.map_cons, List.sum_cons]
      cases findProduct catalog op.pid <;> simp <;> ring
    · have hb : (op.pid == pid) = false := by simp [h]
      simp only [stockOf, findProduct_incStock_ne catalog h, incSum,
        List.filter_cons, hb, Bool.false_eq_true, ite_false]

theorem incSum_staged (lines : List CartLine) (pid : Pid) :
    incSum (lines.map (fun l => { pid := l.product, inc := -l.quantity })) pid
      = -qtyOrdered lines pid := by
  induction lines with
  | nil => simp [incSum, qtyOrdered]
  | cons l ls ih =>
    cases h : (l.product == pid) with
    | true =>
      simp only [List.map_cons, incSum, qtyOrdered, List.filter_cons, h,
        ite_true, List.sum_cons] at ih ⊢
      omega
    | false =>
      simp only [List.map_cons, incSum, qtyOrdered, List.filter_cons, h,
        Bool.false_eq_true, ite_false] at ih ⊢
      exact ih

/-! Helper lemmas about the validation loop. -/

theorem processItems_ok_spec (catalog : List Product) (lines : List CartLine) :
    ∀ (ip : ℚ) (items : List OrderItem) (ops : List BulkOp),
      processItems (findProduct catalog) lines = .ok (ip, items, ops) →
      ops = lines.map (fun l => { pid := l.product, inc := -l.quantity }) ∧
      ∀ it ∈ items, ∃ p, findProduct catalog it.product = some p ∧
        it.price = p.price := by
  induction lines with
  | nil =>
    intro ip items ops h
    simp only [processItems, Except.ok.injEq, Prod.mk.injEq] at h
    obtain ⟨-, h2, h3⟩ := h
    subst h2; subst h3
    simp
  | cons line rest ih =>
    intro ip items ops h
    simp only [processItems] at h
    cases hf : findProduct catalog line.product with
    | none => simp only [hf] at h; exact absurd h (by simp)
    | some p =>
      simp only [hf] at h
      by_cases hlt : p.countInStock < line.quantity
      · rw [if_pos hlt] at h; exact absurd h (by simp)
      · rw [if_neg hlt] at h
        cases hr : processItems (findProduct catalog) rest with
        | error e => simp only [hr] at h; exact absurd h (by simp)
        | ok tup =>
          obtain ⟨ip1, items1, ops1⟩ := tup
          simp only [hr] at h
          simp only [Except.ok.injEq, Prod.mk.injEq] at h
          obtain ⟨-, h2, h3⟩ := h
          obtain ⟨hops, hsnap⟩ := ih ip1 items1 ops1 hr
          have hid : p.id = line.product := findProduct_id hf
          constructor
          · rw [← h3, hops, List.map_cons]
            simp [hid]
          · intro it hit
            rw [← h2] at hit
            rcases List.mem_cons.mp hit with hhead | htail
            · subst hhead
              refine ⟨p, ?_, rfl⟩
              simpa [hid] using hf
            · exact hsnap it htail

theorem processItems_congr (lookup : Pid → Option Product)
    (c1 c2 : List CartLine)
    (h : c1.map (fun l => (l.product, l.quantity))
       = c2.map (fun l => (l.product, l.quantity))) :
    processItems lookup c1 = processItems lookup c2 := by
  induction c1 generalizing c2 with
  | nil =>
    cases c2 with
    | nil => rfl
    | cons m ms => simp at h
  | cons l ls ih =>
    cases c2 with
    | nil => simp at h
    | cons m ms =>
      simp only [List.map_cons, List.cons.injEq, Prod.mk.injEq] at h
      obtain ⟨⟨hp, hq⟩, hrest⟩ := h
      simp only [processItems, hp, hq, ih ms hrest]

theorem processItems_err_of_insufficient (catalog : List Product)
    (lines : List CartLine)
    (h : ∃ l ∈ lines, ∃ p, findProduct catalog l.product = some p ∧
      p.countInStock < l.quantity) :
    ∃ e, processItems (findProduct catalog) lines = .error e := by
  induction lines with
  | nil => simp at h
  | cons line rest ih =>
    obtain ⟨l, hl, p, hp, hlt⟩ := h
    cases hf : findProduct catalog line.product with
    | none =>
      exact ⟨CartError.productNotFound line.product, by
        simp only [processItems, hf]⟩
    | some q =>
      by_cases hq : q.countInStock < line.quantity
      · exact ⟨CartError.outOfStock q.name, by
          simp only [processItems, hf, if_pos hq]⟩
      · rcases List.mem_cons.mp hl with heq | hl2
        · subst heq
          rw [hf] at hp
          cases hp
          exact absurd hlt hq
        · obtain ⟨e, he⟩ := ih ⟨l, hl2, p, hp, hlt⟩
          exact ⟨e, by simp only [processItems, hf, if_neg hq, he]⟩

theorem processItems_first_oos (catalog : List Product) (pre : List CartLine) :
    ∀ (l : CartLine) (post : List CartLine) (p : Product),
      (∀ l2 ∈ pre, ∃ q, findProduct catalog l2.product = some q ∧
        ¬q.countInStock < l2.quantity) →
      findProduct catalog l.product = some p →
      p.countInStock < l.quantity →
      processItems (findProduct catalog) (pre ++ l :: post)
        = .error (.outOfStock p.name) := by
  induction pre with
  | nil =>
    intro l post p hpre hf hlt
    simp only [List.nil_append, processItems, hf, if_pos hlt]
  | cons a pre ih =>
    intro l post p hpre hf hlt
    obtain ⟨q, hq, hqs⟩ := hpre a (List.mem_cons_self a pre)
    have hrec := ih l post p
      (fun l2 hl2 => hpre l2 (List.mem_cons_of_mem a hl2)) hf hlt
    simp only [List.cons_append, processItems, hq, if_neg hqs,
      List.append_eq, hrec]

theorem ite_isEmpty_applyBulkOps (catalog : List Product) (ops : List BulkOp) :
    (if ops.isEmpty then catalog else applyBulkOps catalog ops)
      = applyBulkOps catalog ops := by
  cases ops <;> simp [applyBulkOps]

/-- Inversion of a 201 response from addOrderItems: the run validated the
cart, the save did not throw, and the result is exactly the success
output with the bulk decrement applied and the new order appended. -/
theorem addOrderItems_ok_inv (st : OrderState) (uid : Uid) (body : OrderReq)
    (oid : Oid) (sf : Bool)
    (h : (addOrderItems st uid body oid sf).1.status = 201) :
    sf = false ∧ ∃ ip items ops,
      processItems (findProduct st.catalog) body.orderItems
        = .ok (ip, items, ops) ∧
      addOrderItems st uid body oid sf =
        ({ status := 201, ok := true, message := "Order created successfully" },
         { catalog := applyBulkOps st.catalog ops,
           orders := st.orders ++ [mkOrderDoc uid body oid ip items] },
         [.stockCommit, .orderSave]) := by
  by_cases he : body.orderItems.isEmpty
  · rw [addOrderItems, if_pos he] at h
    simp at h
  · rw [addOrderItems, if_neg he] at h
    cases hr : processItems (findProduct st.catalog) body.orderItems with
    | error e =>
      cases e <;> simp only [hr] at h <;> simp at h
    | ok tup =>
      obtain ⟨ip, items, ops⟩ := tup
      simp only [hr] at h
      cases sf with
      | true => simp at h
      | false =>
        refine ⟨rfl, ip, items, ops, rfl, ?_⟩
        rw [addOrderItems, if_neg he]
        simp only [hr, ite_isEmpty_applyBulkOps]
        simp

/-! Claim C2. -/

/-- Concrete catalog product of the quantity-1 price-50 scenario. -/
def c2Product : Product :=
  { id := 2, user := 0, name := "P2", image := "", price := 50,
    description := "", category := "", countInStock := 10, reviews := [],
    rating := 0, numReviews := 0 }

def c2State : OrderState := { catalog := [c2Product], orders := [] }

def c2Body : OrderReq :=
  { orderItems := [{ product := 2, quantity := 1, price := none }],
    shippingAddress := "addr", paymentMethod := "Stripe" }

/-- C2: for every cart that passes validation in addOrderItems the
persisted order satisfies taxPrice = round2 of ten percent of itemsPrice,
shippingPrice = 0 when itemsPrice exceeds 100 and 10 otherwise, and
totalPrice = itemsPrice + taxPrice + shippingPrice; and the single-line
cart of quantity 1 at price 50 with stock 10 yields itemsPrice 50,
taxPrice 5, shippingPrice 10, totalPrice 65. -/
theorem claim_c2_price_fields :
    (∀ (st : OrderState) (uid : Uid) (body : OrderReq) (oid : Oid),
      (addOrderItems st uid body oid false).1.status = 201 →
      ∃ o : Order,
        (addOrderItems st uid body oid false).2.1.orders = st.orders ++ [o] ∧
        o.taxPrice = round2 (o.itemsPrice * (1 / 10)) ∧
        o.shippingPrice = (if o.itemsPrice > 100 then (0 : ℚ) else 10) ∧
        o.totalPrice = o.itemsPrice + o.taxPrice + o.shippingPrice) ∧
    ((addOrderItems c2State 7 c2Body 1 false).2.1.orders.map
        (fun o => (o.itemsPrice, o.taxPrice, o.shippingPrice, o.totalPrice))
      = [(50, 5, 10, 65)]) := by
  constructor
  · intro st uid body oid h
    obtain ⟨-, ip, items, ops, -, heq⟩ := addOrderItems_ok_inv st uid body oid false h
    refine ⟨mkOrderDoc uid body oid ip items, ?_, ?_, ?_, ?_⟩
    · rw [heq]
    · simp [mkOrderDoc]
    · simp [mkOrderDoc]
    · simp [mkOrderDoc]
  · norm_num [c2State, c2Body, c2Product, addOrderItems, processItems,
      findProduct, List.find?, mkOrderDoc, round2, round_eq]

/-- Witness for C2 at the concrete price-50 scenario. -/
theorem claim_c2_price_fields_witness :
    ∃ o : Order,
      (addOrderItems c2State 7 c2Body 1 false).2.1.orders
        = c2State.orders ++ [o] ∧
      o.taxPrice = round2 (o.itemsPrice * (1 / 10)) ∧
      o.shippingPrice = (if o.itemsPrice > 100 then (0 : ℚ) else 10) ∧
      o.totalPrice = o.itemsPrice + o.taxPrice + o.shippingPrice :=
  claim_c2_price_fields.1 c2State 7 c2Body 1 (by
    norm_num [c2State, c2Body, c2Product, addOrderItems, processItems,
      findProduct, List.find?])

/-! Claim C9. -/

def c9Product : Product :=
  { id := 1, user := 0, name := "Widget", image := "", price := 50,
    description := "", category := "", countInStock := 10, reviews := [],
    rating := 0, numReviews := 0 }

def c9State : OrderState := { catalog := [c9Product], orders := [] }

def c9Body : OrderReq :=
  { orderItems := [{ product := 1, quantity := -2, price := none }],
    shippingAddress := "addr", paymentMethod := "Stripe" }

/-- C9: order creation does not enforce positive quantities: a line of
quantity -2 against an existing product with stock 10 passes the check
(10 is not less than -2), the order is created with a negative
contribution to itemsPrice (50 times -2 = -100), and committing the
staged increment of minus the quantity raises the stock from 10 to 12. -/
theorem claim_c9_negative_quantity :
    ¬((10 : ℤ) < -2) ∧
    (addOrderItems c9State 0 c9Body 1 false).1.status = 201 ∧
    ((addOrderItems c9State 0 c9Body 1 false).2.1.orders.map
      (fun o => o.itemsPrice)) = [-100] ∧
    ((-100 : ℚ) < 0) ∧
    stockOf c9State.catalog 1 = some 10 ∧
    stockOf (addOrderItems c9State 0 c9Body 1 false).2.1.catalog 1 = some 12 ∧
    ((10 : ℤ) < 12) := by
  norm_num [c9State, c9Body, c9Product, addOrderItems, processItems,
    findProduct, List.find?, mkOrderDoc, round2, round_eq, stockOf,
    applyBulkOps, incStock]

/-! Claim C1. -/

def c1Product : Product :=
  { id := 1, user := 0, name := "Widget", image := "", price := 20,
    description := "", category := "", countInStock := 10, reviews := [],
    rating := 0, numReviews := 0 }

def c1State : OrderState := { catalog := [c1Product], orders := [] }

def c1Body : OrderReq :=
  { orderItems := [{ product := 1, quantity := 2, price := none }],
    shippingAddress := "addr", paymentMethod := "Stripe" }

/-- Counterexample to C1: addOrderItems commits the bulk stock decrement
before it persists the order, so when order.save throws on a validated
cart the run ends with the stock already decremented (10 to 8) and no
order persisted - the reverse of the claimed ordering, which said stock
is never decremented before the order is persisted.  The success trace
likewise shows the stock commit strictly before the order save. -/
theorem claim_c1_counterexample :
    (addOrderItems c1State 0 c1Body 1 true).1.status = 500 ∧
    stockOf c1State.catalog 1 = some 10 ∧
    stockOf (addOrderItems c1State 0 c1Body 1 true).2.1.catalog 1 = some 8 ∧
    (addOrderItems c1State 0 c1Body 1 true).2.1.orders = [] ∧
    (addOrderItems c1State 0 c1Body 1 true).2.2 = [DbEffect.stockCommit] ∧
    (addOrderItems c1State 0 c1Body 1 false).2.2
      = [DbEffect.stockCommit, DbEffect.orderSave] := by
  norm_num [c1State, c1Body, c1Product, addOrderItems, processItems,
    findProduct, List.find?, mkOrderDoc, round2, round_eq, stockOf,
    applyBulkOps, incStock]

/-- C1 amended: the effects of addOrderItems occur in the order validate
the cart, then commit the staged bulk stock decrement, then persist the
order; consequently a failure between the last two steps leaves the stock
decremented with no persisted order (never a persisted order whose stock
was not decremented). -/
theorem claim_c1_amended :
    (∀ (st : OrderState) (uid : Uid) (body : OrderReq) (oid : Oid),
      (addOrderItems st uid body oid false).1.status = 201 →
      (addOrderItems st uid body oid false).2.2
        = [DbEffect.stockCommit, DbEffect.orderSave]) ∧
    (∀ (st : OrderState) (uid : Uid) (body : OrderReq) (oid : Oid)
      (ip : ℚ) (items : List OrderItem) (ops : List BulkOp),
      processItems (findProduct st.catalog) body.orderItems
        = Except.ok (ip, items, ops) →
      body.orderItems ≠ [] →
      (addOrderItems st uid body oid true).1.status = 500 ∧
      (addOrderItems st uid body oid true).2.1.catalog
        = applyBulkOps st.catalog ops ∧
      (addOrderItems st uid body oid true).2.1.orders = st.orders) := by
  constructor
  · intro st uid body oid h
    obtain ⟨-, ip, items, ops, -, heq⟩ :=
      addOrderItems_ok_inv st uid body oid false h
    rw [heq]
  · intro st uid body oid ip items ops hr hne
    have he : body.orderItems.isEmpty = false := by
      cases h2 : body.orderItems with
      | nil => exact absurd h2 hne
      | cons a l => rfl
    rw [addOrderItems, he]
    simp [hr, ite_isEmpty_applyBulkOps]
    intro hops
    subst hops
    rfl

/-- Witness for the amended C1 at a concrete validated cart. -/
theorem claim_c1_amended_witness :
    ((addOrderItems c1State 0 c1Body 1 false).2.2
      = [DbEffect.stockCommit, DbEffect.orderSave]) ∧
    ((addOrderItems c1State 0 c1Body 1 true).1.status = 500 ∧
     (addOrderItems c1State 0 c1Body 1 true).2.1.catalog
       = applyBulkOps c1State.catalog [{ pid := 1, inc := -2 }] ∧
     (addOrderItems c1State 0 c1Body 1 true).2.1.orders = c1State.orders) :=
  ⟨claim_c1_amended.1 c1State 0 c1Body 1 (by
      norm_num [c1State, c1Body, c1Product, addOrderItems, processItems,
        findProduct, List.find?]),
   claim_c1_amended.2 c1State 0 c1Body 1 40
     [{ name := "Widget", quantity := 2, image := "", price := 20, product := 1 }]
     [{ pid := 1, inc := -2 }]
     (by norm_num [c1State, c1Body, c1Product, processItems, findProduct,
        List.find?])
     (by simp [c1Body])⟩

/-! Claim C3. -/

def c3Product : Product :=
  { id := 1, user := 0, name := "Widget", image := "", price := 5,
    description := "", category := "", countInStock := 10, reviews := [],
    rating := 0, numReviews := 0 }

def c3State : OrderState := { catalog := [c3Product], orders := [] }

def c3Body : OrderReq :=
  { orderItems := [{ product := 1, quantity := 1, price := none },
                   { product := 1, quantity := 2, price := none }],
    shippingAddress := "addr", paymentMethod := "Stripe" }

/-- Counterexample to C3: a successful order whose cart references
product 1 in two lines (quantities 1 and 2).  The creation succeeds and
the product's stock decreases from 10 to 7, by 3 - not by the quantity
of either single line referencing it, so the stock of a product
referenced in the cart does not in general decrease by exactly that
line's ordered quantity. -/
theorem claim_c3_counterexample :
    (addOrderItems c3State 0 c3Body 1 false).1.status = 201 ∧
    (c3Body.orderItems.map (fun l => (l.product, l.quantity)))
      = [(1, 1), (1, 2)] ∧
    stockOf c3State.catalog 1 = some 10 ∧
    stockOf (addOrderItems c3State 0 c3Body 1 false).2.1.catalog 1 = some 7 ∧
    ¬((10 : ℤ) - 7 = 1) ∧ ¬((10 : ℤ) - 7 = 2) := by
  norm_num [c3State, c3Body, c3Product, addOrderItems, processItems,
    findProduct, List.find?, mkOrderDoc, round2, round_eq, stockOf,
    applyBulkOps, incStock]

/-- C3 amended: on every successful order creation the stock of every
product id decreases by the total quantity over all cart lines
referencing it (equal to that line's quantity when the cart lines
reference pairwise distinct products); every persisted line item carries
the unit price read from the catalog at validation time; and two
requests that agree on products, quantities, shipping address and
payment method - so in particular two requests differing only in
caller-supplied price fields - produce identical results. -/
theorem claim_c3_amended :
    (∀ (st : OrderState) (uid : Uid) (body : OrderReq) (oid : Oid),
      (addOrderItems st uid body oid false).1.status = 201 →
      (∀ pid : Pid,
        stockOf (addOrderItems st uid body oid false).2.1.catalog pid =
          (stockOf st.catalog pid).map
            (fun s => s - qtyOrdered body.orderItems pid)) ∧
      (∃ o : Order,
        (addOrderItems st uid body oid false).2.1.orders = st.orders ++ [o] ∧
        ∀ it ∈ o.orderItems, ∃ p, findProduct st.catalog it.product = some p ∧
          it.price = p.price)) ∧
    (∀ (st : OrderState) (uid : Uid) (body1 body2 : OrderReq) (oid : Oid)
      (sf : Bool),
      body1.orderItems.map (fun l => (l.product, l.quantity))
        = body2.orderItems.map (fun l => (l.product, l.quantity)) →
      body1.shippingAddress = body2.shippingAddress →
      body1.paymentMethod = body2.paymentMethod →
      addOrderItems st uid body1 oid sf = addOrderItems st uid body2 oid sf) := by
  constructor
  · intro st uid body oid h
    obtain ⟨-, ip, items, ops, hpi, heq⟩ :=
      addOrderItems_ok_inv st uid body oid false h
    obtain ⟨hops, hsnap⟩ := processItems_ok_spec st.catalog body.orderItems
      ip items ops hpi
    constructor
    · intro pid
      rw [heq, hops]
      have h1 := stockOf_applyBulkOps
        (body.orderItems.map (fun l => { pid := l.product, inc := -l.quantity }))
        st.catalog pid
      rw [incSum_staged] at h1
      simpa [sub_eq_add_neg] using h1
    · refine ⟨mkOrderDoc uid body oid ip items, ?_, ?_⟩
      · rw [heq]
      · intro it hit
        exact hsnap it hit
  · intro st uid body1 body2 oid sf h hs hp
    have hempty : body1.orderItems.isEmpty = body2.orderItems.isEmpty := by
      cases h1 : body1.orderItems <;> cases h2 : body2.orderItems <;>
        rw [h1, h2] at h <;> simp_all
    have hproc := processItems_congr (findProduct st.catalog)
      body1.orderItems body2.orderItems h
    have hmk : ∀ (ip : ℚ) (items : List OrderItem),
        mkOrderDoc uid body1 oid ip items = mkOrderDoc uid body2 oid ip items := by
      intro ip items
      simp [mkOrderDoc, hs, hp]
    rw [addOrderItems, addOrderItems, hempty, hproc]
    by_cases he : body2.orderItems.isEmpty
    · rw [if_pos he, if_pos he]
    · rw [if_neg he, if_neg he]
      cases hr : processItems (findProduct st.catalog) body2.orderItems with
      | error e => cases e <;> rfl
      | ok tup =>
        obtain ⟨ip, items, ops⟩ := tup
        simp only [hmk]

/-- Witness for the amended C3 at the concrete duplicate-line cart. -/
theorem claim_c3_amended_witness :
    stockOf (addOrderItems c3State 0 c3Body 1 false).2.1.catalog 1 =
      (stockOf c3State.catalog 1).map
        (fun s => s - qtyOrdered c3Body.orderItems 1) :=
  ((claim_c3_amended.1 c3State 0 c3Body 1 (by
    norm_num [c3State, c3Body, c3Product, addOrderItems, processItems,
      findProduct, List.find?, mkOrderDoc])).1) 1

/-! Claim C4. -/

def c4Product : Product :=
  { id := 1, user := 0, name := "Widget", image := "", price := 5,
    description := "", category := "", countInStock := 10, reviews := [],
    rating := 0, numReviews := 0 }

def c4State : OrderState := { catalog := [c4Product], orders := [] }

def c4Body : OrderReq :=
  { orderItems := [{ product := 99, quantity := 1, price := none },
                   { product := 1, quantity := 20, price := none }],
    shippingAddress := "addr", paymentMethod := "Stripe" }

/-- Counterexample to C4: a cart whose second line orders quantity 20 of
product 1 (stock 10, so the quantity exceeds the current stock) but
whose first line references the missing product 99.  Creation fails, but
with the 404 not-found error for product 99, not with an out-of-stock
error naming product 1 - so a cart containing an over-stock line does
not always fail with an out-of-stock error naming that product. -/
theorem claim_c4_counterexample :
    (c4Body.orderItems.map (fun l => (l.product, l.quantity)))
      = [(99, 1), (1, 20)] ∧
    findProduct c4State.catalog 1 = some c4Product ∧
    (c4Product.countInStock < 20) ∧
    findProduct c4State.catalog 99 = none ∧
    (addOrderItems c4State 0 c4Body 1 false).1
      = { status := 404, ok := false, message := "Product 99 not found" } ∧
    (addOrderItems c4State 0 c4Body 1 false).1.message
      ≠ c4Product.name ++ " is out of stock" := by
  refine ⟨rfl, rfl, by norm_num [c4Product], rfl, rfl, by decide⟩

/-- C4 amended: any cart containing a line whose quantity exceeds the
resolved product's current stock makes order creation fail with no store
mutation (no stock changed, no order persisted); and when such a line is
the first failing line of the cart - every earlier line resolves with
sufficient stock - the failure is the 400 out-of-stock error naming that
product. -/
theorem claim_c4_amended :
    (∀ (st : OrderState) (uid : Uid) (body : OrderReq) (oid : Oid) (sf : Bool),
      (∃ l ∈ body.orderItems, ∃ p, findProduct st.catalog l.product = some p ∧
        p.countInStock < l.quantity) →
      (addOrderItems st uid body oid sf).1.status ≠ 201 ∧
      (addOrderItems st uid body oid sf).2.1 = st) ∧
    (∀ (st : OrderState) (uid : Uid) (body : OrderReq) (oid : Oid) (sf : Bool)
      (pre : List CartLine) (l : CartLine) (post : List CartLine) (p : Product),
      body.orderItems = pre ++ l :: post →
      (∀ l2 ∈ pre, ∃ q, findProduct st.catalog l2.product = some q ∧
        ¬q.countInStock < l2.quantity) →
      findProduct st.catalog l.product = some p →
      p.countInStock < l.quantity →
      (addOrderItems st uid body oid sf).1
        = { status := 400, ok := false, message := p.name ++ " is out of stock" } ∧
      (addOrderItems st uid body oid sf).2.1 = st) := by
  constructor
  · intro st uid body oid sf hex
    obtain ⟨e, he⟩ := processItems_err_of_insufficient st.catalog
      body.orderItems hex
    have hne : body.orderItems.isEmpty = false := by
      obtain ⟨l, hl, -⟩ := hex
      cases h2 : body.orderItems with
      | nil => rw [h2] at hl; simp at hl
      | cons a as => rfl
    rw [addOrderItems, hne]
    cases e <;> simp [he]
  · intro st uid body oid sf pre l post p hb hpre hf hlt
    have he := processItems_first_oos st.catalog pre l post p hpre hf hlt
    have hne : body.orderItems.isEmpty = false := by
      rw [hb]
      cases pre <;> rfl
    rw [addOrderItems, hne, hb]
    simp [he]

/-- Witness for the amended C4: the concrete cart of the counterexample
contains an over-stock line, so creation fails with no state change. -/
theorem claim_c4_amended_witness :
    (addOrderItems c4State 0 c4Body 1 false).1.status ≠ 201 ∧
    (addOrderItems c4State 0 c4Body 1 false).2.1 = c4State :=
  claim_c4_amended.1 c4State 0 c4Body 1 false
    ⟨{ product := 1, quantity := 20, price := none },
     by simp [c4Body],
     c4Product,
     by norm_num [c4State, c4Product, findProduct, List.find?],
     by norm_num [c4Product]⟩

/-! Claim C5. -/

def c5Product : Product :=
  { id := 1, user := 10, name := "Widget", image := "", price := 5,
    description := "", category := "", countInStock := 3, reviews := [],
    rating := 0, numReviews := 0 }

def c5Order : Order :=
  { id := 1, user := 10, orderItems := [], shippingAddress := "addr",
    paymentMethod := "Stripe", paymentResult := none, itemsPrice := 50,
    taxPrice := 5, shippingPrice := 10, totalPrice := 65, isPaid := false,
    paidAt := none, isDelivered := false, deliveredAt := none }

def c5Req : UpdateReq :=
  { name := some "Hacked", price := some 1, description := none,
    category := none, countInStock := none }

/-- Counterexample to C5: user 20 (not the owner 10, not admin) sends a
PUT on product 1 and a createPaymentIntent on order 1.  Both are
rejected with HTTP 401 - the status this very service uses for
Unauthorized - and not with 403, the status it renders the Forbidden
policy with in getOrderById; the stores are unchanged. -/
theorem claim_c5_counterexample :
    c5Product.user ≠ 20 ∧
    (updateProduct [c5Product] 20 false 1 c5Req).1.status = 401 ∧
    (updateProduct [c5Product] 20 false 1 c5Req).1.status ≠ 403 ∧
    (updateProduct [c5Product] 20 false 1 c5Req).2 = [c5Product] ∧
    c5Order.user ≠ 20 ∧
    (createPaymentIntent [c5Order] 20
      { orderId := some 1, currency := none }).1.status = 401 ∧
    (createPaymentIntent [c5Order] 20
      { orderId := some 1, currency := none }).1.status ≠ 403 ∧
    (createPaymentIntent [c5Order] 20
      { orderId := some 1, currency := none }).2 = [c5Order] := by
  refine ⟨by norm_num [c5Product], rfl, by decide, rfl,
    by norm_num [c5Order], rfl, by decide, rfl⟩

/-- C5 amended: a caller who is neither the product's owner nor admin
has a PUT on the product rejected with status 401 and message that they
are not authorized to edit it, leaving the catalog unchanged; and a
caller who does not own an order has createPaymentIntent on it rejected
with status 401 and the not-authorized-to-pay message, with the order
store returned unchanged (the handler never writes it). -/
theorem claim_c5_amended :
    (∀ (catalog : List Product) (actor : Uid) (pid : Pid) (body : UpdateReq)
      (p : Product),
      findProduct catalog pid = some p → p.user ≠ actor →
      updateProduct catalog actor false pid body =
        ({ status := 401, ok := false,
           message := "Not authorized to edit this product" }, catalog)) ∧
    (∀ (orders : List Order) (actor : Uid) (oid : Oid)
      (currency : Option String) (o : Order),
      findOrder orders oid = some o → o.user ≠ actor →
      createPaymentIntent orders actor
        { orderId := some oid, currency := currency } =
        ({ status := 401, ok := false,
           message := "Not authorized to pay for this order",
           intent := none }, orders)) := by
  constructor
  · intro catalog actor pid body p hf hne
    rw [updateProduct]
    simp only [hf]
    rw [if_pos (And.intro hne (by trivial))]
  · intro orders actor oid currency o hf hne
    rw [createPaymentIntent]
    simp only [hf]
    rw [if_pos hne]

/-- Witness for the amended C5 at the concrete non-owner caller 20. -/
theorem claim_c5_amended_witness :
    (updateProduct [c5Product] 20 false 1 c5Req =
      ({ status := 401, ok := false,
         message := "Not authorized to edit this product" }, [c5Product])) ∧
    (createPaymentIntent [c5Order] 20 { orderId := some 1, currency := none } =
      ({ status := 401, ok := false,
         message := "Not authorized to pay for this order",
         intent := none }, [c5Order])) :=
  ⟨claim_c5_amended.1 [c5Product] 20 1 c5Req c5Product rfl
     (by norm_num [c5Product]),
   claim_c5_amended.2 [c5Order] 20 1 none c5Order rfl
     (by norm_num [c5Order])⟩

/-! Claim C10. -/

/-- C10: in updateProduct every field is written through the JavaScript
or-pattern, so a request supplying a falsy value (absent or null modelled
as none, the empty string, numeric zero) for name, price, description,
category or countInStock leaves that stored field at its previous value;
price and countInStock can therefore never be set to zero through this
operation, and the fields the request never carries (owner, image,
reviews, rating, numReviews) are unchanged. -/
theorem claim_c10_falsy_update :
    ∀ (catalog : List Product) (actor : Uid) (admin : Bool) (pid : Pid)
      (body : UpdateReq) (p : Product),
      findProduct catalog pid = some p →
      (p.user = actor ∨ admin = true) →
      (updateProduct catalog actor admin pid body).1.status = 200 ∧
      ∃ p1, findProduct (updateProduct catalog actor admin pid body).2 pid
          = some p1 ∧
        ((body.name = none ∨ body.name = some "") → p1.name = p.name) ∧
        ((body.price = none ∨ body.price = some 0) → p1.price = p.price) ∧
        ((body.description = none ∨ body.description = some "") →
          p1.description = p.description) ∧
        ((body.category = none ∨ body.category = some "") →
          p1.category = p.category) ∧
        ((body.countInStock = none ∨ body.countInStock = some 0) →
          p1.countInStock = p.countInStock) ∧
        (p1.price = 0 → p.price = 0) ∧
        (p1.countInStock = 0 → p.countInStock = 0) ∧
        p1.user = p.user ∧ p1.image = p.image ∧ p1.reviews = p.reviews ∧
        p1.rating = p.rating ∧ p1.numReviews = p.numReviews := by
  intro catalog actor admin pid body p hf hauth
  have hcond : ¬(p.user ≠ actor ∧ admin = false) := by
    rcases hauth with h1 | h1
    · exact fun hc => hc.1 h1
    · exact fun hc => by rw [h1] at hc; exact absurd hc.2 (by simp)
  rw [updateProduct]
  simp only [hf]
  rw [if_neg hcond]
  have hsave := findProduct_saveProduct_self catalog pid
    ({ p with
        name := jsOrStr body.name p.name,
        price := jsOrQ body.price p.price,
        description := jsOrStr body.description p.description,
        category := jsOrStr body.category p.category,
        countInStock := jsOrZ body.countInStock p.countInStock }) p
    (by have h2 : p.id = pid := findProduct_id hf; exact h2) hf
  refine ⟨rfl, _, hsave, ?_, ?_, ?_, ?_, ?_, ?_, ?_, rfl, rfl, rfl, rfl, rfl⟩
  · rintro (h | h) <;> simp [jsOrStr, h]
  · rintro (h | h) <;> simp [jsOrQ, h]
  · rintro (h | h) <;> simp [jsOrStr, h]
  · rintro (h | h) <;> simp [jsOrStr, h]
  · rintro (h | h) <;> simp [jsOrZ, h]
  · intro h
    cases hb : body.price with
    | none => simpa only [jsOrQ, hb] using h
    | some x =>
      simp only [jsOrQ, hb] at h
      by_cases hx : x = 0
      · rw [if_pos hx] at h; exact h
      · rw [if_neg hx] at h; exact absurd h hx
  · intro h
    cases hb : body.countInStock with
    | none => simpa only [jsOrZ, hb] using h
    | some x =>
      simp only [jsOrZ, hb] at h
      by_cases hx : x = 0
      · rw [if_pos hx] at h; exact h
      · rw [if_neg hx] at h; exact absurd h hx

def c10Product : Product :=
  { id := 1, user := 10, name := "Widget", image := "img", price := 5,
    description := "desc", category := "cat", countInStock := 3,
    reviews := [], rating := 0, numReviews := 0 }

def c10Req : UpdateReq :=
  { name := some "", price := some 0, description := none,
    category := none, countInStock := some 0 }

/-- Witness for C10: the owner sends empty-string name, zero price and
zero countInStock; every field keeps its previous value. -/
theorem claim_c10_falsy_update_witness :
    (updateProduct [c10Product] 10 false 1 c10Req).1.status = 200 ∧
    ∃ p1, findProduct (updateProduct [c10Product] 10 false 1 c10Req).2 1
        = some p1 ∧
      ((c10Req.name = none ∨ c10Req.name = some "") → p1.name = c10Product.name) ∧
      ((c10Req.price = none ∨ c10Req.price = some 0) →
        p1.price = c10Product.price) ∧
      ((c10Req.description = none ∨ c10Req.description = some "") →
        p1.description = c10Product.description) ∧
      ((c10Req.category = none ∨ c10Req.category = some "") →
        p1.category = c10Product.category) ∧
      ((c10Req.countInStock = none ∨ c10Req.countInStock = some 0) →
        p1.countInStock = c10Product.countInStock) ∧
      (p1.price = 0 → c10Product.price = 0) ∧
      (p1.countInStock = 0 → c10Product.countInStock = 0) ∧
      p1.user = c10Product.user ∧ p1.image = c10Product.image ∧
      p1.reviews = c10Product.reviews ∧ p1.rating = c10Product.rating ∧
      p1.numReviews = c10Product.numReviews :=
  claim_c10_falsy_update [c10Product] 10 false 1 c10Req c10Product rfl
    (Or.inl rfl)

/-! Claims C6 and C7: the webhook. -/

/-- The order document as the webhook rewrites it when marking an order
paid: isPaid true, paidAt the delivery time, and the payment result
recording the intent id and status, the iso time string, and the receipt
email falling back to the owner's stored email. -/
def paidOrder (o : Order) (ev : StripeEvent) (now : ℤ) (iso : String)
    (emailOf : Uid → String) : Order :=
  { o with
    isPaid := true,
    paidAt := some now,
    paymentResult := some
      { id := ev.obj.id, status := ev.obj.status, update_time := iso,
        email_address := ev.obj.receipt_email.getD (emailOf o.user) } }

/-- One verified succeeded delivery that resolves its order: the handler
answers 200 and saves the order marked paid. -/
theorem stripeWebhook_found (orders : List Order) (emailOf : Uid → String)
    (ev : StripeEvent) (oid : Oid) (o : Order) (now : ℤ) (iso : String)
    (ef : Bool)
    (ht : ev.type = "payment_intent.succeeded")
    (hm : ev.obj.metadataOrderId = some oid)
    (hf : findOrder orders oid = some o) :
    stripeWebhook orders emailOf true ev now iso false ef =
      ({ status := 200, body := "" },
       saveOrder oid (paidOrder o ev now iso emailOf) orders) := by
  rw [stripeWebhook]
  rw [if_neg (by simp)]
  rw [if_pos ht]
  simp only [hm]
  rw [if_neg (by simp)]
  simp only [hf]
  rfl

/-- C6: the webhook is idempotent for order payment state: delivering
the same verified payment-succeeded event twice yields a 200
acknowledgement both times (no error on the second delivery), the order
is paid after either delivery, and paidAt holds a timestamp (the
delivery time, not null) after both. -/
theorem claim_c6_webhook_idempotent :
    ∀ (orders : List Order) (emailOf : Uid → String) (ev : StripeEvent)
      (oid : Oid) (o : Order) (n1 n2 : ℤ) (s1 s2 : String) (ef1 ef2 : Bool),
      ev.type = "payment_intent.succeeded" →
      ev.obj.metadataOrderId = some oid →
      findOrder orders oid = some o →
      (stripeWebhook orders emailOf true ev n1 s1 false ef1).1.status = 200 ∧
      (∃ o1, findOrder (stripeWebhook orders emailOf true ev n1 s1 false ef1).2
          oid = some o1 ∧ o1.isPaid = true ∧ o1.paidAt = some n1) ∧
      (stripeWebhook (stripeWebhook orders emailOf true ev n1 s1 false ef1).2
        emailOf true ev n2 s2 false ef2).1.status = 200 ∧
      (∃ o2, findOrder
          (stripeWebhook (stripeWebhook orders emailOf true ev n1 s1 false ef1).2
            emailOf true ev n2 s2 false ef2).2 oid = some o2 ∧
        o2.isPaid = true ∧ o2.paidAt = some n2) := by
  intro orders emailOf ev oid o n1 n2 s1 s2 ef1 ef2 ht hm hf
  have h1 := stripeWebhook_found orders emailOf ev oid o n1 s1 ef1 ht hm hf
  have hfind1 : findOrder (stripeWebhook orders emailOf true ev n1 s1
      false ef1).2 oid = some (paidOrder o ev n1 s1 emailOf) := by
    rw [h1]
    exact findOrder_saveOrder_self orders oid (paidOrder o ev n1 s1 emailOf) o
      (by have h3 : o.id = oid := findOrder_id hf; exact h3) hf
  have h2 := stripeWebhook_found
    (stripeWebhook orders emailOf true ev n1 s1 false ef1).2 emailOf ev oid
    (paidOrder o ev n1 s1 emailOf) n2 s2 ef2 ht hm hfind1
  have hfind2 : findOrder (stripeWebhook
      (stripeWebhook orders emailOf true ev n1 s1 false ef1).2
      emailOf true ev n2 s2 false ef2).2 oid
      = some (paidOrder (paidOrder o ev n1 s1 emailOf) ev n2 s2 emailOf) := by
    rw [h2]
    exact findOrder_saveOrder_self
      (stripeWebhook orders emailOf true ev n1 s1 false ef1).2 oid
      (paidOrder (paidOrder o ev n1 s1 emailOf) ev n2 s2 emailOf)
      (paidOrder o ev n1 s1 emailOf)
      (by have h3 : o.id = oid := findOrder_id hf; exact h3) hfind1
  exact ⟨by rw [h1], ⟨paidOrder o ev n1 s1 emailOf, hfind1, rfl, rfl⟩,
    by rw [h2],
    ⟨paidOrder (paidOrder o ev n1 s1 emailOf) ev n2 s2 emailOf, hfind2,
      rfl, rfl⟩⟩

/-- C7: the webhook answers a non-success status exactly when signature
verification fails, and a signature failure changes no order state; once
verified it acknowledges 200 regardless of the event type, a missing
metadata order id, an absent order, a failing db step, or a failing
notification step. -/
theorem claim_c7_ack_iff_sig :
    ∀ (orders : List Order) (emailOf : Uid → String) (sigValid : Bool)
      (ev : StripeEvent) (now : ℤ) (iso : String) (dbFails emailFails : Bool),
      ((stripeWebhook orders emailOf sigValid ev now iso dbFails
          emailFails).1.status ≠ 200 ↔ sigValid = false) ∧
      (sigValid = false →
        (stripeWebhook orders emailOf sigValid ev now iso dbFails
          emailFails).2 = orders) := by
  intro orders emailOf sigValid ev now iso dbFails emailFails
  cases sigValid with
  | false => simp [stripeWebhook]
  | true =>
    have hstat : (stripeWebhook orders emailOf true ev now iso dbFails
        emailFails).1.status = 200 := by
      rw [stripeWebhook]
      rw [if_neg (by simp)]
      by_cases ht : ev.type = "payment_intent.succeeded"
      · rw [if_pos ht]
        cases hm : ev.obj.metadataOrderId with
        | none => simp only [hm]
        | some oid =>
          simp only [hm]
          cases dbFails with
          | true => rfl
          | false =>
            rw [if_neg (by simp)]
            cases hfo : findOrder orders oid with
            | none => simp only [hfo]
            | some o => simp only [hfo]
      · rw [if_neg ht]
    refine ⟨by simp [hstat], fun h => absurd h (by simp)⟩

def c6Order : Order :=
  { id := 1, user := 10, orderItems := [], shippingAddress := "addr",
    paymentMethod := "Stripe", paymentResult := none, itemsPrice := 50,
    taxPrice := 5, shippingPrice := 10, totalPrice := 65, isPaid := false,
    paidAt := none, isDelivered := false, deliveredAt := none }

def c6Event : StripeEvent :=
  { type := "payment_intent.succeeded",
    obj := { id := "pi_1", amount := 6500, status := "succeeded",
             metadataOrderId := some 1, receipt_email := none } }

/-- Witness for C6: the same verified succeeded event delivered twice
against a one-order store. -/
theorem claim_c6_webhook_idempotent_witness :
    (stripeWebhook [c6Order] (fun _ => "u@e") true c6Event 5 "t1" false
      false).1.status = 200 ∧
    (∃ o1, findOrder (stripeWebhook [c6Order] (fun _ => "u@e") true c6Event 5
        "t1" false false).2 1 = some o1 ∧ o1.isPaid = true ∧
      o1.paidAt = some 5) ∧
    (stripeWebhook (stripeWebhook [c6Order] (fun _ => "u@e") true c6Event 5
      "t1" false false).2 (fun _ => "u@e") true c6Event 9 "t2" false
      false).1.status = 200 ∧
    (∃ o2, findOrder
        (stripeWebhook (stripeWebhook [c6Order] (fun _ => "u@e") true c6Event
          5 "t1" false false).2 (fun _ => "u@e") true c6Event 9 "t2" false
          false).2 1 = some o2 ∧
      o2.isPaid = true ∧ o2.paidAt = some 9) :=
  claim_c6_webhook_idempotent [c6Order] (fun _ => "u@e") c6Event 1 c6Order
    5 9 "t1" "t2" false false rfl rfl rfl

/-- Witness for C7 at a concrete invalid-signature delivery. -/
theorem claim_c7_ack_iff_sig_witness :
    ((stripeWebhook [c6Order] (fun _ => "u@e") false c6Event 5 "t1" false
        false).1.status ≠ 200 ↔ false = false) ∧
    (false = false →
      (stripeWebhook [c6Order] (fun _ => "u@e") false c6Event 5 "t1" false
        false).2 = [c6Order]) :=
  claim_c7_ack_iff_sig [c6Order] (fun _ => "u@e") false c6Event 5 "t1"
    false false

/-! Claim C8: reviews. -/

/-- find? skips a prefix in which nothing matches. -/
theorem find?_append_of_none {α : Type} (pred : α → Bool) (l1 l2 : List α)
    (h : l1.find? pred = none) : (l1 ++ l2).find? pred = l2.find? pred := by
  induction l1 with
  | nil => rfl
  | cons a as ih =>
    cases ha : pred a with
    | true =>
      simp only [List.find?, ha, cond_true] at h
      exact absurd h (by simp)
    | false =>
      simp only [List.find?, ha, cond_false] at h
      simp only [List.cons_append, List.find?, ha, cond_false]
      exact ih h

/-- The review document createProductReview builds from the request. -/
def mkReview (actorName : String) (body : ReviewReq) (actor : Uid) : Review :=
  { name := actorName, rating := body.rating, comment := body.comment,
    user := actor }

/-- The product document after a review append: the review pushed,
numReviews set to the review count and rating to the mean. -/
def reviewedProduct (p : Product) (actorName : String) (body : ReviewReq)
    (actor : Uid) : Product :=
  { p with
    reviews := p.reviews ++ [mkReview actorName body actor],
    numReviews := (p.reviews ++ [mkReview actorName body actor]).length,
    rating := (((p.reviews ++ [mkReview actorName body actor]).map
        (fun r => r.rating)).sum)
      / ((p.reviews ++ [mkReview actorName body actor]).length : ℚ) }

/-- C8: after a successful review append the product's rating is the
arithmetic mean of the embedded review ratings and numReviews is the
length of the review sequence; a second review by the same user on the
same product is rejected (HTTP 400 with the duplicate-review message,
this service's rendering of the Conflict taxonomy error) with the store
unchanged, so rating and numReviews keep exactly one contribution from
that user. -/
theorem claim_c8_review_mean_and_duplicate :
    ∀ (catalog : List Product) (actor : Uid) (actorName : String) (pid : Pid)
      (body : ReviewReq) (p : Product),
      findProduct catalog pid = some p →
      p.reviews.find? (fun r => r.user == actor) = none →
      (createProductReview catalog actor actorName pid body).1.status = 201 ∧
      ∃ p1, findProduct (createProductReview catalog actor actorName
          pid body).2 pid = some p1 ∧
        p1.reviews = p.reviews ++ [mkReview actorName body actor] ∧
        p1.numReviews = p1.reviews.length ∧
        p1.rating = (p1.reviews.map (fun r => r.rating)).sum
          / (p1.reviews.length : ℚ) ∧
        (p1.reviews.filter (fun r => r.user == actor)).length = 1 ∧
        (∀ (body2 : ReviewReq) (name2 : String),
          createProductReview (createProductReview catalog actor actorName
              pid body).2 actor name2 pid body2
            = ({ status := 400, ok := false,
                 message := "Product already reviewed by this user" },
               (createProductReview catalog actor actorName pid body).2)) := by
  intro catalog actor actorName pid body p hf hnone
  have hrun : createProductReview catalog actor actorName pid body =
      ({ status := 201, ok := true, message := "Review added" },
       saveProduct pid (reviewedProduct p actorName body actor) catalog) := by
    rw [createProductReview]
    simp only [hf]
    rw [if_neg (by simp [hnone])]
    rfl
  have hsave := findProduct_saveProduct_self catalog pid
    (reviewedProduct p actorName body actor) p
    (by have h2 : p.id = pid := findProduct_id hf; exact h2) hf
  have hdup : ((reviewedProduct p actorName body actor).reviews.find?
      (fun r => r.user == actor)).isSome = true := by
    show ((p.reviews ++ [mkReview actorName body actor]).find?
      (fun r => r.user == actor)).isSome = true
    rw [find?_append_of_none _ _ _ hnone]
    simp [List.find?, mkReview]
  refine ⟨by rw [hrun], reviewedProduct p actorName body actor,
    by rw [hrun]; exact hsave, rfl, rfl, rfl, ?_, ?_⟩
  · show ((p.reviews ++ [mkReview actorName body actor]).filter
      (fun r => r.user == actor)).length = 1
    rw [List.filter_append]
    have hl : p.reviews.filter (fun r => r.user == actor) = [] := by
      rw [List.filter_eq_nil_iff]
      intro r hr
      have h3 := List.find?_eq_none.mp hnone r hr
      simpa using h3
    rw [hl]
    simp [mkReview]
  · intro body2 name2
    rw [hrun]
    rw [createProductReview]
    simp only [hsave]
    rw [if_pos hdup]

def c8Product : Product :=
  { id := 1, user := 10, name := "Widget", image := "", price := 5,
    description := "", category := "", countInStock := 3,
    reviews := [], rating := 0, numReviews := 0 }

def c8Req : ReviewReq := { rating := 4, comment := "nice" }

/-- Witness for C8: user 3 reviews product 1 once; the aggregate fields
are recomputed and a second attempt is rejected with the store kept. -/
theorem claim_c8_review_mean_and_duplicate_witness :
    (createProductReview [c8Product] 3 "Alice" 1 c8Req).1.status = 201 ∧
    ∃ p1, findProduct (createProductReview [c8Product] 3 "Alice" 1
        c8Req).2 1 = some p1 ∧
      p1.reviews = c8Product.reviews ++ [mkReview "Alice" c8Req 3] ∧
      p1.numReviews = p1.reviews.length ∧
      p1.rating = (p1.reviews.map (fun r => r.rating)).sum
        / (p1.reviews.length : ℚ) ∧
      (p1.reviews.filter (fun r => r.user == 3)).length = 1 ∧
      (∀ (body2 : ReviewReq) (name2 : String),
        createProductReview (createProductReview [c8Product] 3 "Alice" 1
            c8Req).2 3 name2 1 body2
          = ({ status := 400, ok := false,
               message := "Product already reviewed by this user" },
             (createProductReview [c8Product] 3 "Alice" 1 c8Req).2)) :=
  claim_c8_review_mean_and_duplicate [c8Product] 3 "Alice" 1 c8Req
    c8Product rfl rfl

end ProductsApi
